import Mathlib

/-!
A verification development for the StereoPipeline bundle-adjustment and
jitter-solving code.  C++ doubles are modelled as exact rationals; machine
`int` arithmetic is modelled on `ℤ`; fallible code (`vw_throw`) is modelled
with `Except`.  Each embedded definition carries a reference to the C++
function it was translated from.  Definitions come first, then the
supporting lemmas and the claim theorems.
-/

namespace StereoPipeline

/-- `static_cast<int>(q)` on a floating value: truncation toward zero. -/
def truncToInt (q : ℚ) : ℤ :=
  if 0 ≤ q then ⌊q⌋ else ⌈q⌉

/-- C `round`: round half away from zero. -/
def cRound (q : ℚ) : ℤ :=
  if 0 ≤ q then ⌊q + 1/2⌋ else -⌊-q + 1/2⌋

/--
Embedding of `asp::calcIndexBounds` (JitterSolveCostFuns.cc).
Computes the window of sample indices needed to interpolate between
`time1` and `time2`, with 8-point Lagrange interpolation margins, and
throws (models `vw_throw`) when the window is empty.
Returns `(begIndex, endIndex)` with `endIndex` exclusive.
-/
def calcIndexBounds (time1 time2 t0 dt : ℚ) (numVals : ℤ) :
    Except String (ℤ × ℤ) :=
  let numInterpSamples : ℤ := 8
  let index1 := truncToInt ((time1 - t0) / dt)
  let index2 := truncToInt ((time2 - t0) / dt)
  let begIndex := min index1 index2 - numInterpSamples / 2 + 1
  let endIndex := max index1 index2 + numInterpSamples / 2 + 1
  let begIndex := max 0 begIndex
  let endIndex := min endIndex numVals
  if begIndex ≥ endIndex then
    Except.error "Book-keeping error in interpolation."
  else
    Except.ok (begIndex, endIndex)

/--
Modelled from the spec: the claimed index window, read literally.
"beg = ⌊(t_min−t0)/Δt⌋ − 3 and end = ⌊(t_max−t0)/Δt⌋ + 4, clamped to
[0,N], and a fatal error is raised if beg ≥ end", with `end` the last
index of the inclusive window of samples the cost may touch.
-/
def claimedIndexBounds (time1 time2 t0 dt : ℚ) (numVals : ℤ) :
    Except String (ℤ × ℤ) :=
  let begIndex := max 0 (⌊(min time1 time2 - t0) / dt⌋ - 3)
  let endIndex := min (⌊(max time1 time2 - t0) / dt⌋ + 4) numVals
  if begIndex ≥ endIndex then
    Except.error "Book-keeping error in interpolation."
  else
    Except.ok (begIndex, endIndex)

/-- The sample indices whose blocks `addLsReprojectionErr`
(JitterSolveCostFuns.cc) registers with the solver: the loop
`for (it = begIndex; it < endIndex; it++)`, so `endIndex` is exclusive. -/
def lsWindowSamples (begIndex endIndex : ℤ) : List ℤ :=
  (List.range (endIndex - begIndex).toNat).map (fun k => begIndex + k)

/-! ## Jitter reprojection residuals (JitterSolveCostFuns.cc) -/

/-- A 3-vector of doubles. -/
abbrev V3 := ℚ × ℚ × ℚ

/-- A quaternion sample, 4 doubles (`NUM_QUAT_PARAMS = 4`). -/
abbrev Quat4 := ℚ × ℚ × ℚ × ℚ

/-- `g_big_pixel_value` (JitterSolveCostFuns.cc): the saturating residual
used when projection throws. -/
def gBigPixelValue : ℚ := 1000

/-- State of a `UsgsAstroLsSensorModel` as used by the jitter cost
functions: quaternion and position sample arrays with their start times
and sampling periods.  Arrays are total maps on `ℤ`; only indices in
`[0, num)` correspond to real samples. -/
structure LsModel where
  numQuat : ℤ
  t0Quat : ℚ
  dtQuat : ℚ
  quaternions : ℤ → Quat4
  numPos : ℤ
  t0Ephem : ℚ
  dtEphem : ℚ
  positions : ℤ → V3

/-- The shallow camera copy made by `LsPixelReprojErr::operator()`: the
quaternions in `[begQuatIndex, endQuatIndex)` and the positions in
`[begPosIndex, endPosIndex)` are overwritten with the solver's current
parameter blocks (block `k` holds sample `beg + k`); everything else is
kept from the original model. -/
def lsUpdatedCam (m : LsModel) (begQuatIndex endQuatIndex begPosIndex endPosIndex : ℤ)
    (paramsQ : ℤ → Quat4) (paramsP : ℤ → V3) : LsModel :=
  { m with
    quaternions := fun qi =>
      if begQuatIndex ≤ qi ∧ qi < endQuatIndex then paramsQ (qi - begQuatIndex)
      else m.quaternions qi,
    positions := fun pi =>
      if begPosIndex ≤ pi ∧ pi < endPosIndex then paramsP (pi - begPosIndex)
      else m.positions pi }

/-- Embedding of `LsPixelReprojErr::operator()` (JitterSolveCostFuns.cc).
`proj` stands for `UsgsAstroLsSensorModel::groundToImage` (external
usgscsm code); `none` models a thrown exception.  Returns the residual
pair together with the `bool` handed back to the solver.  The `catch`
branch writes `g_big_pixel_value` into both residuals and still returns
`true`. -/
def lsPixelReprojErr (proj : LsModel → V3 → Option (ℚ × ℚ))
    (m : LsModel) (begQuatIndex endQuatIndex begPosIndex endPosIndex : ℤ)
    (paramsQ : ℤ → Quat4) (paramsP : ℤ → V3) (point : V3)
    (observation : ℚ × ℚ) (weight : ℚ) : (ℚ × ℚ) × Bool :=
  let cam := lsUpdatedCam m begQuatIndex endQuatIndex begPosIndex endPosIndex
      paramsQ paramsP
  match proj cam point with
  | some pix => ((weight * (pix.1 - observation.1), weight * (pix.2 - observation.2)), true)
  | none => ((gBigPixelValue, gBigPixelValue), true)

/-- State of a `UsgsAstroFrameSensorModel` as used by the frame cost:
position (parameters 0-2), quaternion (parameters 3-6), and the
remaining fixed model state. -/
structure FrameModel where
  position : V3
  quaternion : Quat4
  fixedState : ℤ → ℚ

/-- Embedding of `FramePixelReprojErr::operator()` (JitterSolveCostFuns.cc):
copy the model, set position from `parameters[0]` and quaternion from
`parameters[1]`, project `parameters[2]`; on exception write
`g_big_pixel_value` into both residuals and still return `true`. -/
def framePixelReprojErr (proj : FrameModel → V3 → Option (ℚ × ℚ))
    (m : FrameModel) (pos : V3) (q : Quat4) (point : V3)
    (observation : ℚ × ℚ) (weight : ℚ) : (ℚ × ℚ) × Bool :=
  let cam : FrameModel := { m with position := pos, quaternion := q }
  match proj cam point with
  | some pix => ((weight * (pix.1 - observation.1), weight * (pix.2 - observation.2)), true)
  | none => ((gBigPixelValue, gBigPixelValue), true)

/-- The inclusive 8-sample window `[idx−3, idx+4]` that order-8 Lagrange
interpolation at time `t` touches, with `idx = trunc((t−t0)/dt)` as in
`lagrangeInterp` (usgscsm). -/
def inLagrangeWindow (t t0 dt : ℚ) (i : ℤ) : Prop :=
  truncToInt ((t - t0) / dt) - 3 ≤ i ∧ i ≤ truncToInt ((t - t0) / dt) + 4

instance (t t0 dt : ℚ) (i : ℤ) : Decidable (inLagrangeWindow t t0 dt i) :=
  instDecidableAnd

/-- The quaternion samples visible to interpolation at time `t`: samples
inside the Lagrange window, nothing else. -/
def maskedQuats (m : LsModel) (t : ℚ) : ℤ → Option Quat4 :=
  fun i => if inLagrangeWindow t m.t0Quat m.dtQuat i then some (m.quaternions i) else none

/-- The position samples visible to interpolation at time `t`. -/
def maskedPositions (m : LsModel) (t : ℚ) : ℤ → Option V3 :=
  fun i => if inLagrangeWindow t m.t0Ephem m.dtEphem i then some (m.positions i) else none

/-- Modelled from the spec: `UsgsAstroLsSensorModel::groundToImage`
(usgscsm, external to this repository).  Per the spec, "a pixel
observation only depends on samples whose time influences interpolation
at that pixel's line time", with 8-point Lagrange interpolation.
`lineTime point` is the line time of the solved pixel and `F` is an
arbitrary interpolation/projection kernel that sees only the samples in
the Lagrange windows at that time. -/
def groundToImageSpec (F : (ℤ → Option Quat4) → (ℤ → Option V3) → ℚ × ℚ)
    (lineTime : V3 → ℚ) : LsModel → V3 → Option (ℚ × ℚ) :=
  fun m point => some (F (maskedQuats m (lineTime point)) (maskedPositions m (lineTime point)))

/-! ## Roll/yaw regularizer (JitterSolveCostFuns.cc) -/

/-- The `x − 180·round(x/180)` normalization used by
`weightedRollYawError::operator()` ("Fix for roll / yaw being determined
with a 180-degree ambiguity"). -/
def normalizeAngle180 (x : ℚ) : ℚ :=
  x - 180 * cRound (x / 180)

/-- Embedding of `weightedRollYawError::operator()`
(JitterSolveCostFuns.cc).  The decomposition
`rollPitchYawFromRotationMatrix` lives in asp/Core/CameraTransforms.cc
(outside the sources at hand), so its three outputs, in degrees, are
taken as inputs here.  In the `m_initial_camera_constraint` mode the
code swaps roll and pitch ("Roll, pitch, yaw in camera coordinates are
pitch, roll, yaw in satellite coordinates"); in both modes each angle is
normalized and multiplied by its weight, with no special casing for
zero weights. -/
def weightedRollYawError (initialCameraConstraint : Bool)
    (roll pitch yaw rollWeight yawWeight : ℚ) : ℚ × ℚ :=
  if initialCameraConstraint then
    (normalizeAngle180 pitch * rollWeight, normalizeAngle180 yaw * yawWeight)
  else
    (normalizeAngle180 roll * rollWeight, normalizeAngle180 yaw * yawWeight)

/-! ## Initial transform handling (BundleAdjustCamera2.cc, init_cams) -/

/-- One packed camera-adjustment record: position and unit quaternion. -/
abbrev CamRecord := V3 × Quat4

/-- `BAParams::init_cams_as_zero`: every adjustment is the identity
(zero position, identity pose). -/
def initCamsAsZero (n : ℕ) : List CamRecord :=
  List.replicate n ((0, 0, 0), (1, 0, 0, 0))

/-- Embedding of `init_cams` (BundleAdjustCamera2.cc).  `scale` is
`pow(det(initial_transform), 1.0/3.0)` — the floating cube root is
modelled by passing the resulting scale directly.  `readAdjustments`
models `put_adjustments_in_params` (disk input) and `applyTransform`
models `apply_transform_to_params` with the given matrix; both are
external effects parametrized here.  For a CSM session a transform whose
scale differs from 1 by more than 1e-6 is rejected (`vw_throw`) before
`apply_transform_to_params` runs. -/
def init_cams (session : String) (hasInputAdjustments hasInitialTransform : Bool)
    (scale : ℚ) (readAdjustments applyTransform : List CamRecord → List CamRecord)
    (numCameras : ℕ) : Except String (List CamRecord × Bool) :=
  let params := initCamsAsZero numCameras
  let st := if hasInputAdjustments then (readAdjustments params, true) else (params, false)
  if hasInitialTransform then
    if session = "csm" ∧ |scale - 1| > 1 / 1000000 then
      Except.error "CSM camera models do not support applying a transform with a scale."
    else
      Except.ok (applyTransform st.1, true)
  else
    Except.ok st

/-! ## GCP distance check (BundleAdjustCamera.cc, check_gcp_dists) -/

/-- Componentwise vector helpers for `vw::Vector3`. -/
def v3add (a b : V3) : V3 := (a.1 + b.1, a.2.1 + b.2.1, a.2.2 + b.2.2)

def v3sub (a b : V3) : V3 := (a.1 - b.1, a.2.1 - b.2.1, a.2.2 - b.2.2)

def v3div (a : V3) (c : ℚ) : V3 := (a.1 / c, a.2.1 / c, a.2.2 / c)

def v3smul (c : ℚ) (a : V3) : V3 := (c * a.1, c * a.2.1, c * a.2.2)

/-- Squared Euclidean norm; `norm_2(v) > c` with `c ≥ 0` is equivalent
to `v3normSq v > c^2`, which avoids the square root. -/
def v3normSq (a : V3) : ℚ := a.1 ^ 2 + a.2.1 ^ 2 + a.2.2 ^ 2

/-- A control-network point as seen by `check_gcp_dists`:
its type, stored position, number of measures, and the result of
`vw::ba::triangulate_control_point` (external VisionWorkbench code),
carried as data: the returned value `triAns` and the triangulated
position `triPos`. -/
structure CnetPoint where
  isGCP : Bool
  pos : V3
  nmeas : ℕ
  triAns : ℚ
  triPos : V3

/-- First loop of `check_gcp_dists`: count GCPs and triangulatable
interest points.  A point is skipped when its position is zero or it has
at most one measure; a non-GCP is skipped when triangulation fails
(negative return or zero position). -/
def gcpIpCounts (cnet : List CnetPoint) : ℚ × ℚ :=
  cnet.foldl (fun c p =>
    if p.pos = ((0 : ℚ), (0 : ℚ), (0 : ℚ)) ∨ p.nmeas ≤ 1 then c
    else if p.isGCP then (c.1 + 1, c.2)
    else if p.triAns < 0 ∨ p.triPos = ((0 : ℚ), (0 : ℚ), (0 : ℚ)) then c
    else (c.1, c.2 + 1)) (0, 0)

/-- Second loop of `check_gcp_dists`: accumulate the means.  Note the
code's `mean_gcp += (cnet[ipt].position() / gcp_count); ++gcp_count;`
— the GCP divisor is incremented *while* accumulating, so for two or
more GCPs the result is not the centroid; the interest-point divisor
`ip_count` is never incremented. -/
def gcpIpMeans (cnet : List CnetPoint) (gcpCount ipCount : ℚ) : V3 × V3 :=
  let st := cnet.foldl (fun (st : V3 × V3 × ℚ) p =>
    if p.pos = ((0 : ℚ), (0 : ℚ), (0 : ℚ)) ∨ p.nmeas ≤ 1 then st
    else if p.isGCP then (v3add st.1 (v3div p.pos st.2.2), st.2.1, st.2.2 + 1)
    else if p.triPos = ((0 : ℚ), (0 : ℚ), (0 : ℚ)) ∨ p.triAns < 0 then st
    else (st.1, v3add st.2.1 (v3div p.triPos ipCount), st.2.2)) ((0, 0, 0), (0, 0, 0), gcpCount)
  (st.1, st.2.1)

/-- Embedding of `check_gcp_dists` (BundleAdjustCamera.cc).  Returns
`true` iff the warning about GCPs being over 100 km away is printed.
The distance test `norm_2(mean_ip - mean_gcp) > 100000` is expressed on
squares. -/
def check_gcp_dists (cnet : List CnetPoint) : Bool :=
  let counts := gcpIpCounts cnet
  if counts.2 = 0 ∨ counts.1 = 0 then false
  else
    let means := gcpIpMeans cnet counts.1 counts.2
    decide (v3normSq (v3sub means.2 means.1) > 100000 ^ 2)

/-- The true per-coordinate centroid of a list of vectors (what the
claim calls "the centroid"). -/
def v3centroid (l : List V3) : V3 :=
  v3div (l.foldl v3add (0, 0, 0)) (l.length : ℚ)

/-! ## Cloud center estimator (stereo_tri.cc) -/

/-- Ascending insertion into a sorted list, modelling `std::sort`'s
resulting order. -/
def insertSorted (x : ℚ) : List ℚ → List ℚ
  | [] => [x]
  | y :: ys => if x ≤ y then x :: y :: ys else y :: insertSorted x ys

/-- Ascending sort of the coordinate vector `V`. -/
def sortQ (l : List ℚ) : List ℚ :=
  l.foldr insertSorted []

/-- `V[n/2]` after sorting: the (upper) median pick used by
`find_approx_points_median`. -/
def medianPick (l : List ℚ) (n : ℕ) : ℚ :=
  (sortQ l).getD (n / 2) 0

/-- The perturbation `median[i] += median[i]*1e-10*rand()/double(RAND_MAX)`
of `find_approx_points_median`, with `u = rand()/RAND_MAX ∈ [0,1]`. -/
def perturb1e10 (u m : ℚ) : ℚ :=
  m + m * (1 / 10000000000) * u

/-- Embedding of `find_approx_points_median` (stereo_tri.cc).  For each
coordinate the sorted values' element at index `size/2` is taken and
then perturbed; the three random draws are the inputs `u1 u2 u3`.  An
empty list returns `Vector3()`, the zero vector. -/
def find_approx_points_median (u1 u2 u3 : ℚ) (points : List V3) : V3 :=
  if points = [] then (0, 0, 0)
  else
    (perturb1e10 u1 (medianPick (points.map fun p => p.1) points.length),
     perturb1e10 u2 (medianPick (points.map fun p => p.2.1) points.length),
     perturb1e10 u3 (medianPick (points.map fun p => p.2.2) points.length))

/-- An integer pixel box `[minX, maxX) × [minY, maxY)` (`vw::BBox2i`). -/
structure BBox where
  minX : ℤ
  minY : ℤ
  maxX : ℤ
  maxY : ℤ

/-- `BBox2i::crop`: intersection of two boxes. -/
def cropBBox (a b : BBox) : BBox :=
  ⟨max a.minX b.minX, max a.minY b.minY, min a.maxX b.maxX, min a.maxY b.maxY⟩

/-- The valid (nonzero) xyz values of a cropped tile, in the
column-major visit order of `find_point_cloud_center`'s inner loops. -/
def collectTilePoints (cloud : ℤ → ℤ → V3) (box : BBox) : List V3 :=
  (List.range (box.maxX - box.minX).toNat).flatMap (fun px =>
    (List.range (box.maxY - box.minY).toNat).filterMap (fun py =>
      let xyz := cloud (box.minX + px) (box.minY + py)
      if xyz = ((0 : ℚ), (0 : ℚ), (0 : ℚ)) then none else some xyz))

/-- The tile coordinates visited by the spiral loops of
`find_point_cloud_center`: for each ring `r = 0 .. max(numx/2, numy/2)`,
the boundary of the square of half-width `r` centred at
`(numx/2, numy/2)`, skipping inner and out-of-bounds tiles. -/
def spiralTiles (numx numy : ℕ) : List (ℤ × ℤ) :=
  (List.range (max (numx / 2) (numy / 2) + 1)).flatMap (fun r =>
    (List.range (2 * r + 1)).flatMap (fun dx =>
      (List.range (2 * r + 1)).filterMap (fun dy =>
        let x : ℤ := (numx / 2 : ℕ) - (r : ℤ) + (dx : ℤ)
        let y : ℤ := (numy / 2 : ℕ) - (r : ℤ) + (dy : ℤ)
        if x ≠ (numx / 2 : ℕ) - (r : ℤ) ∧ x ≠ (numx / 2 : ℕ) + (r : ℤ) ∧
           y ≠ (numy / 2 : ℕ) - (r : ℤ) ∧ y ≠ (numy / 2 : ℕ) + (r : ℤ) then none
        else if x < 0 ∨ y < 0 ∨ x ≥ (numx : ℤ) ∨ y ≥ (numy : ℤ) then none
        else some (x, y))))

/-- The accumulation loop of `find_point_cloud_center`: visit tiles in
spiral order, appending each cropped tile's valid points; return the
accumulated list as soon as `points.size() > 100` after a tile (the
median of this very list is what the code then returns). -/
def findCenterPoints (cloud : ℤ → ℤ → V3) (fullBox cropWin : BBox) (ts0 ts1 : ℕ) :
    List (ℤ × ℤ) → List V3 → List V3
  | [], points => points
  | (x, y) :: rest, points =>
      let box : BBox := ⟨x * (ts0 : ℤ), y * (ts1 : ℤ),
                         x * (ts0 : ℤ) + (ts0 : ℤ), y * (ts1 : ℤ) + (ts1 : ℤ)⟩
      let box := cropBBox box fullBox
      let box := cropBBox box cropWin
      let points := points ++ collectTilePoints cloud box
      if points.length > 100 then points
      else findCenterPoints cloud fullBox cropWin ts0 ts1 rest points

/-- Embedding of `find_point_cloud_center` (stereo_tri.cc): spiral over
tile-aligned boxes from the raster centre, stop once strictly more than
100 valid points were accumulated, return the perturbed per-coordinate
median of the accumulated points.  `cropWin` is
`stereo_settings().trans_crop_win`. -/
def find_point_cloud_center (u1 u2 u3 : ℚ) (ts0 ts1 cols rows : ℕ) (cropWin : BBox)
    (cloud : ℤ → ℤ → V3) : V3 :=
  let numx := (cols + ts0 - 1) / ts0
  let numy := (rows + ts1 - 1) / ts1
  find_approx_points_median u1 u2 u3
    (findCenterPoints cloud ⟨0, 0, (cols : ℤ), (rows : ℤ)⟩ cropWin ts0 ts1
      (spiralTiles numx numy) [])

/-- Modelled from the spec: the claimed stopping rule — "stop when
≥ 100 points are available" — in place of the code's `> 100`. -/
def findCenterPointsSpecStop (cloud : ℤ → ℤ → V3) (fullBox cropWin : BBox) (ts0 ts1 : ℕ) :
    List (ℤ × ℤ) → List V3 → List V3
  | [], points => points
  | (x, y) :: rest, points =>
      let box : BBox := ⟨x * (ts0 : ℤ), y * (ts1 : ℤ),
                         x * (ts0 : ℤ) + (ts0 : ℤ), y * (ts1 : ℤ) + (ts1 : ℤ)⟩
      let box := cropBBox box fullBox
      let box := cropBBox box cropWin
      let points := points ++ collectTilePoints cloud box
      if points.length ≥ 100 then points
      else findCenterPointsSpecStop cloud fullBox cropWin ts0 ts1 rest points

/-- Modelled from the spec: `find_point_cloud_center` with the claimed
"stop as soon as at least 100 points" rule. -/
def find_point_cloud_center_specStop (u1 u2 u3 : ℚ) (ts0 ts1 cols rows : ℕ)
    (cropWin : BBox) (cloud : ℤ → ℤ → V3) : V3 :=
  let numx := (cols + ts0 - 1) / ts0
  let numy := (rows + ts1 - 1) / ts1
  find_approx_points_median u1 u2 u3
    (findCenterPointsSpecStop cloud ⟨0, 0, (cols : ℤ), (rows : ℤ)⟩ cropWin ts0 ts1
      (spiralTiles numx numy) [])

/-! ## Ground alignment application (BundleAdjustCamera.cc) -/

/-- A 3×3 matrix of doubles. -/
structure M3 where
  a11 : ℚ
  a12 : ℚ
  a13 : ℚ
  a21 : ℚ
  a22 : ℚ
  a23 : ℚ
  a31 : ℚ
  a32 : ℚ
  a33 : ℚ

/-- Matrix-vector product. -/
def mulMV (R : M3) (v : V3) : V3 :=
  (R.a11 * v.1 + R.a12 * v.2.1 + R.a13 * v.2.2,
   R.a21 * v.1 + R.a22 * v.2.1 + R.a23 * v.2.2,
   R.a31 * v.1 + R.a32 * v.2.1 + R.a33 * v.2.2)

/-- The camera loop of `apply_rigid_transform`: each camera must cast to
`PinholeModel` (`VW_ASSERT` throws otherwise, modelled by `none`), and
is then transformed in place by `apply_transform(rotation, translation,
scale)` — external VisionWorkbench code, parametrized as `applyT`. -/
def transformCams {Cam : Type} (applyT : Cam → Cam) :
    List (Option Cam) → Except String (List Cam)
  | [] => Except.ok []
  | none :: _ => Except.error "A pinhole camera expected."
  | some c :: rest => Except.map (fun l => applyT c :: l) (transformCams applyT rest)

/-- Embedding of `apply_rigid_transform` (BundleAdjustCamera.cc): apply
the similarity to every camera, then set every non-GCP control point's
position to `scale*rotation*position + translation`, skipping ground
control points. -/
def apply_rigid_transform {Cam : Type} (applyT : Cam → Cam)
    (rotation : M3) (translation : V3) (scale : ℚ)
    (cameraModels : List (Option Cam)) (cnet : List CnetPoint) :
    Except String (List Cam × List CnetPoint) :=
  Except.map (fun newCams =>
      (newCams,
       cnet.map (fun p =>
         if p.isGCP then p
         else { p with pos := v3add (v3smul scale (mulMV rotation p.pos)) translation })))
    (transformCams applyT cameraModels)

/-! ## Intrinsics-to-float DSL (BundleAdjustCamera2.cc) -/

/-- `replace_separators_with_space`: the separators `\ : ; , space tab
CR LF` all become spaces. -/
def replace_separators_with_space (s : List Char) : List Char :=
  s.map (fun c =>
    if c = '\\' ∨ c = ':' ∨ c = ';' ∨ c = ',' ∨ c = ' ' ∨ c = '\t' ∨ c = '\r' ∨ c = '\n'
    then ' ' else c)

/-- `split_str_with_space`: `istringstream >>` extraction — split on
spaces, dropping empty tokens. -/
def split_str_with_space (s : List Char) : List (List Char) :=
  (s.splitOn ' ').filter (fun t => !t.isEmpty)

/-- `is_str_non_neg_integer`: nonempty and all digits. -/
def is_str_non_neg_integer (s : List Char) : Bool :=
  !s.isEmpty && s.all Char.isDigit

/-- `atoi` on an all-digit token. -/
def atoiNat (s : List Char) : ℕ :=
  s.foldl (fun n c => 10 * n + (c.toNat - '0'.toNat)) 0

/-- The zero-based sensor ids appearing as integer tokens, in order. -/
def intTokens (options : List (List Char)) : List ℤ :=
  options.filterMap (fun t =>
    if is_str_non_neg_integer t then some ((atoiNat t : ℤ) - 1) else none)

/-- The token loop of `fine_grained_parse`: an integer token switches
the current sensor id (bounds-checked, duplicates rejected via
`seen_ids`); the named tokens set the current sensor's flags. -/
def fineGo (numSensors : ℤ) :
    List (List Char) → ℤ → List ℤ → List Bool → List Bool → List Bool →
    Except String (List Bool × List Bool × List Bool)
  | [], _, _, c, f, d => Except.ok (c, f, d)
  | tok :: rest, sensorId, seen, c, f, d =>
    if is_str_non_neg_integer tok then
      let sid : ℤ := (atoiNat tok : ℤ) - 1
      if sid < 0 ∨ sid ≥ numSensors then Except.error "Sensor id is out of bounds."
      else if sid ∈ seen then Except.error "Sensor id is repeated."
      else fineGo numSensors rest sid (sid :: seen) c f d
    else if tok = "optical_center".toList then
      fineGo numSensors rest sensorId seen (c.set sensorId.toNat true) f d
    else if tok = "focal_length".toList then
      fineGo numSensors rest sensorId seen c (f.set sensorId.toNat true) d
    else if tok = "other_intrinsics".toList ∨ tok = "distortion".toList then
      fineGo numSensors rest sensorId seen c f (d.set sensorId.toNat true)
    else if tok = "all".toList then
      fineGo numSensors rest sensorId seen (c.set sensorId.toNat true)
        (f.set sensorId.toNat true) (d.set sensorId.toNat true)
    else if tok = "none".toList then
      fineGo numSensors rest sensorId seen c f d
    else Except.error "Found unknown option when parsing which sensor intrinsics to float."

/-- Embedding of `fine_grained_parse` (BundleAdjustCamera2.cc).  Output
is `(float_center, float_focus, float_distortion)`, each of length
`max(num_sensors, 1)` initialized to `false`. -/
def fine_grained_parse (sharePerSensor : Bool) (numSensors : ℤ)
    (options : List (List Char)) :
    Except String (List Bool × List Bool × List Bool) :=
  if !sharePerSensor then
    Except.error "fine_grained_parse is only for when intrinsics are optimized per sensor."
  else if numSensors ≤ 0 then
    Except.error "Expecting a positive number of sensors."
  else if options.isEmpty then
    Except.error "Expecting at least one option."
  else if !is_str_non_neg_integer (options.headD []) then
    Except.error "Expecting an integer as the first option."
  else
    let n := (max numSensors 1).toNat
    fineGo numSensors options ((atoiNat (options.headD []) : ℤ) - 1) []
      (List.replicate n false) (List.replicate n false) (List.replicate n false)

/-- The token loop of `coarse_grained_parse`: sensor id is fixed at 0;
note the code tests `is_str_non_neg_integer(options[0])` — the *first*
token — on every iteration. -/
def coarseGo (first : List Char) :
    List (List Char) → List Bool → List Bool → List Bool →
    Except String (List Bool × List Bool × List Bool)
  | [], c, f, d => Except.ok (c, f, d)
  | tok :: rest, c, f, d =>
    if is_str_non_neg_integer first then
      Except.error "When parsing intrinsics to float, expecting a string, not an integer."
    else if tok = "optical_center".toList then
      coarseGo first rest (c.set 0 true) f d
    else if tok = "focal_length".toList then
      coarseGo first rest c (f.set 0 true) d
    else if tok = "other_intrinsics".toList ∨ tok = "distortion".toList then
      coarseGo first rest c f (d.set 0 true)
    else if tok = "all".toList then
      coarseGo first rest (c.set 0 true) (f.set 0 true) (d.set 0 true)
    else if tok = "none".toList then
      coarseGo first rest c f d
    else Except.error "Found unknown option when parsing which sensor intrinsics to float."

/-- The final loop of `coarse_grained_parse`: copy entry 0 into every
sensor slot `0 ≤ i < num_sensors`. -/
def distributeFlag (numSensors : ℤ) (l : List Bool) : List Bool :=
  l.enum.map (fun pr => if (pr.1 : ℤ) < numSensors then l.getD 0 false else pr.2)

/-- Embedding of `coarse_grained_parse` (BundleAdjustCamera2.cc). -/
def coarse_grained_parse (numSensors : ℤ) (options : List (List Char)) :
    Except String (List Bool × List Bool × List Bool) :=
  if numSensors < 0 then Except.error "Cameras were not parsed correctly."
  else
    let n := (max numSensors 1).toNat
    Except.map (fun r =>
        (distributeFlag numSensors r.1, distributeFlag numSensors r.2.1,
         distributeFlag numSensors r.2.2))
      (coarseGo (options.headD []) options
        (List.replicate n false) (List.replicate n false) (List.replicate n false))

deriving instance DecidableEq for Except

/-! ## Supporting lemmas -/

theorem truncToInt_mono {q r : ℚ} (h : q ≤ r) : truncToInt q ≤ truncToInt r := by
  unfold truncToInt
  by_cases hq : 0 ≤ q
  · rw [if_pos hq, if_pos (le_trans hq h)]
    exact Int.floor_le_floor h
  · rw [if_neg hq]
    by_cases hr : 0 ≤ r
    · rw [if_pos hr]
      have h1 : (⌈q⌉ : ℤ) ≤ 0 := Int.ceil_le.mpr (by exact_mod_cast le_of_not_le hq)
      have h2 : (0 : ℤ) ≤ ⌊r⌋ := Int.floor_nonneg.mpr hr
      omega
    · rw [if_neg hr]
      exact Int.ceil_le_ceil h

theorem truncToInt_of_nonneg {q : ℚ} (h : 0 ≤ q) : truncToInt q = ⌊q⌋ := by
  unfold truncToInt
  rw [if_pos h]

/-- The sample-index map `x ↦ trunc((x − t0)/dt)` is monotone for `dt > 0`. -/
theorem truncIdx_mono (t0 dt : ℚ) (hdt : 0 < dt) :
    Monotone (fun x => truncToInt ((x - t0) / dt)) := by
  intro x y hxy
  apply truncToInt_mono
  apply div_le_div_of_nonneg_right _ hdt.le
  linarith

/-- If `calcIndexBounds` succeeds and neither clamp is active, the whole
Lagrange window of any time inside `[min t1 t2, max t1 t2]` lies inside
the computed `[begIndex, endIndex)`. -/
theorem lagrangeWindow_subset_bounds
    (t1 t2 t0 dt : ℚ) (N bIdx eIdx : ℤ) (hdt : 0 < dt)
    (hok : calcIndexBounds t1 t2 t0 dt N = Except.ok (bIdx, eIdx))
    (hlo : 0 ≤ truncToInt ((min t1 t2 - t0) / dt) - 3)
    (hhi : truncToInt ((max t1 t2 - t0) / dt) + 5 ≤ N)
    (t : ℚ) (ht1 : min t1 t2 ≤ t) (ht2 : t ≤ max t1 t2)
    (i : ℤ) (hi : inLagrangeWindow t t0 dt i) :
    bIdx ≤ i ∧ i < eIdx := by
  have hmin : truncToInt ((min t1 t2 - t0) / dt)
      = min (truncToInt ((t1 - t0) / dt)) (truncToInt ((t2 - t0) / dt)) :=
    (truncIdx_mono t0 dt hdt).map_min
  have hmax : truncToInt ((max t1 t2 - t0) / dt)
      = max (truncToInt ((t1 - t0) / dt)) (truncToInt ((t2 - t0) / dt)) :=
    (truncIdx_mono t0 dt hdt).map_max
  have hmono1 := truncIdx_mono t0 dt hdt ht1
  have hmono2 := truncIdx_mono t0 dt hdt ht2
  simp only at hmono1 hmono2
  simp only [calcIndexBounds] at hok
  rw [← hmin, ← hmax] at hok
  obtain ⟨hi1, hi2⟩ := hi
  split at hok
  · exact absurd hok (by simp)
  · simp only [Except.ok.injEq, Prod.mk.injEq] at hok
    obtain ⟨hb, he⟩ := hok
    omega

/-- If two models agree on the quaternion timing fields and on every
quaternion sample in the Lagrange window of `t`, and likewise for
positions, the masked views at `t` coincide. -/
theorem masked_views_eq (m1 m2 : LsModel) (t : ℚ)
    (hq0 : m2.t0Quat = m1.t0Quat) (hqd : m2.dtQuat = m1.dtQuat)
    (hp0 : m2.t0Ephem = m1.t0Ephem) (hpd : m2.dtEphem = m1.dtEphem)
    (hq : ∀ i, inLagrangeWindow t m1.t0Quat m1.dtQuat i →
      m2.quaternions i = m1.quaternions i)
    (hp : ∀ i, inLagrangeWindow t m1.t0Ephem m1.dtEphem i →
      m2.positions i = m1.positions i) :
    maskedQuats m2 t = maskedQuats m1 t ∧ maskedPositions m2 t = maskedPositions m1 t := by
  constructor
  · funext i
    simp only [maskedQuats, hq0, hqd]
    by_cases h : inLagrangeWindow t m1.t0Quat m1.dtQuat i
    · rw [if_pos h, if_pos h, hq i h]
    · rw [if_neg h, if_neg h]
  · funext i
    simp only [maskedPositions, hp0, hpd]
    by_cases h : inLagrangeWindow t m1.t0Ephem m1.dtEphem i
    · rw [if_pos h, if_pos h, hp i h]
    · rw [if_neg h, if_neg h]

/-! ## Claim theorems -/

/-- C1: counterexample.  At `(t1,t2,t0,Δt,N) = (4,4,0,1,5)` the code
computes bounds `(1,5)` with `5` exclusive, so the samples actually used
are `[1,2,3,4]`.  The claim's formulas, read as an inclusive window
`[beg, end] = [1, min(⌊4⌋+4, 5)] = [1,5]`, assert that index `5` is part
of the window, but the cost never touches sample `5` (there is no sample
`5` among `N = 5` samples). -/
theorem C1_counterexample :
    calcIndexBounds 4 4 0 1 5 = Except.ok (1, 5) ∧
    claimedIndexBounds 4 4 0 1 5 = Except.ok (1, 5) ∧
    lsWindowSamples 1 5 = [1, 2, 3, 4] ∧
    (5 : ℤ) ∉ lsWindowSamples 1 5 := by
  refine ⟨?_, ?_, by decide, by decide⟩
  · norm_num [calcIndexBounds, truncToInt]
  · norm_num [claimedIndexBounds]

/-- C1 (amended): for `Δt > 0` and observation times at or after `t0`
(so floor and C truncation agree), the bounds are
`beg = max(0, ⌊(t_min−t0)/Δt⌋ − 3)` and the *exclusive* end
`end = min(⌊(t_max−t0)/Δt⌋ + 5, N)` — equivalently, the last touched
sample index is `⌊(t_max−t0)/Δt⌋ + 4` clamped to `N−1` — and the fatal
error is raised exactly when `beg ≥ end` with this exclusive `end`. -/
theorem C1_calcIndexBounds_amended (time1 time2 t0 dt : ℚ) (N : ℤ)
    (hdt : 0 < dt) (h1 : t0 ≤ time1) (h2 : t0 ≤ time2) :
    calcIndexBounds time1 time2 t0 dt N =
      (if max 0 (⌊(min time1 time2 - t0) / dt⌋ - 3) ≥
          min (⌊(max time1 time2 - t0) / dt⌋ + 5) N then
        Except.error "Book-keeping error in interpolation."
      else
        Except.ok (max 0 (⌊(min time1 time2 - t0) / dt⌋ - 3),
                   min (⌊(max time1 time2 - t0) / dt⌋ + 5) N)) := by
  have ha : (0:ℚ) ≤ (time1 - t0) / dt :=
    div_nonneg (by linarith) (le_of_lt hdt)
  have hb : (0:ℚ) ≤ (time2 - t0) / dt :=
    div_nonneg (by linarith) (le_of_lt hdt)
  have hmin : (min time1 time2 - t0) / dt
      = min ((time1 - t0) / dt) ((time2 - t0) / dt) := by
    rcases le_total time1 time2 with h | h
    · rw [min_eq_left h, min_eq_left (by
        apply div_le_div_of_nonneg_right _ hdt.le
        linarith)]
    · rw [min_eq_right h, min_eq_right (by
        apply div_le_div_of_nonneg_right _ hdt.le
        linarith)]
  have hmax : (max time1 time2 - t0) / dt
      = max ((time1 - t0) / dt) ((time2 - t0) / dt) := by
    rcases le_total time1 time2 with h | h
    · rw [max_eq_right h, max_eq_right (by
        apply div_le_div_of_nonneg_right _ hdt.le
        linarith)]
    · rw [max_eq_left h, max_eq_left (by
        apply div_le_div_of_nonneg_right _ hdt.le
        linarith)]
  have hminf : ⌊(min time1 time2 - t0) / dt⌋
      = min ⌊(time1 - t0) / dt⌋ ⌊(time2 - t0) / dt⌋ := by
    rw [hmin]
    exact Int.floor_mono.map_min
  have hmaxf : ⌊(max time1 time2 - t0) / dt⌋
      = max ⌊(time1 - t0) / dt⌋ ⌊(time2 - t0) / dt⌋ := by
    rw [hmax]
    exact Int.floor_mono.map_max
  simp only [calcIndexBounds]
  rw [truncToInt_of_nonneg ha, truncToInt_of_nonneg hb, hminf, hmaxf]
  have e1 : ∀ z : ℤ, z - 8 / 2 + 1 = z - 3 := fun z => by omega
  have e2 : ∀ z : ℤ, z + 8 / 2 + 1 = z + 5 := fun z => by omega
  rw [e1, e2]

/-- C1 amended witness: at `(0,0,0,1,10)` the hypotheses hold and the
bounds are `(0,5)`. -/
theorem C1_calcIndexBounds_amended_witness :
    (0:ℚ) < 1 ∧ calcIndexBounds 0 0 0 1 10 = Except.ok (0, 5) := by
  constructor
  · norm_num
  · have h := C1_calcIndexBounds_amended 0 0 0 1 10 (by norm_num)
      (le_refl 0) (le_refl 0)
    rw [h]
    norm_num

/-- C2: counterexample.  With weight `2` and a projection that throws,
the linescan residual is `(1000, 1000)`, not the weight-multiplied
`(2000, 2000)` the claim asserts; the same for the frame residual. -/
theorem C2_counterexample :
    (lsPixelReprojErr (fun _ _ => none)
        ⟨10, 0, 1, fun _ => (0, 0, 0, 1), 10, 0, 1, fun _ => (0, 0, 0)⟩
        0 1 0 1 (fun _ => (0, 0, 0, 1)) (fun _ => (0, 0, 0))
        (1, 1, 1) (0, 0) 2).1 = (1000, 1000) ∧
    (framePixelReprojErr (fun _ _ => none)
        ⟨(0, 0, 0), (0, 0, 0, 1), fun _ => 0⟩
        (0, 0, 0) (0, 0, 0, 1) (1, 1, 1) (0, 0) 2).1 = (1000, 1000) ∧
    ((1000 : ℚ), (1000 : ℚ)) ≠ ((2 * 1000 : ℚ), (2 * 1000 : ℚ)) := by
  refine ⟨rfl, rfl, ?_⟩
  intro h
  rw [Prod.mk.injEq] at h
  norm_num at h

/-- C2 (amended): whenever projecting the point throws (models the
`catch` branch), both residual components are set to the saturating
value `1000` — the weight is *not* applied — and the evaluation still
returns `true` (success) to the solver; the exception never escapes.
Holds for the linescan and the frame residual alike. -/
theorem C2_catch_saturates
    (proj : LsModel → V3 → Option (ℚ × ℚ))
    (projF : FrameModel → V3 → Option (ℚ × ℚ))
    (m : LsModel) (fm : FrameModel) (bQ eQ bP eP : ℤ)
    (pQ : ℤ → Quat4) (pP : ℤ → V3) (pos : V3) (q : Quat4)
    (point : V3) (obs : ℚ × ℚ) (w : ℚ)
    (hls : proj (lsUpdatedCam m bQ eQ bP eP pQ pP) point = none)
    (hfr : projF { fm with position := pos, quaternion := q } point = none) :
    lsPixelReprojErr proj m bQ eQ bP eP pQ pP point obs w = ((1000, 1000), true) ∧
    framePixelReprojErr projF fm pos q point obs w = ((1000, 1000), true) := by
  constructor
  · simp [lsPixelReprojErr, hls, gBigPixelValue]
  · simp [framePixelReprojErr, hfr, gBigPixelValue]

/-- C2 amended witness: a concrete always-throwing projection with
weight `2`. -/
theorem C2_catch_saturates_witness :
    lsPixelReprojErr (fun _ _ => none)
        ⟨10, 0, 1, fun _ => (0, 0, 0, 1), 10, 0, 1, fun _ => (0, 0, 0)⟩
        0 1 0 1 (fun _ => (0, 0, 0, 1)) (fun _ => (0, 0, 0))
        (1, 1, 1) (0, 0) 2 = ((1000, 1000), true) ∧
    framePixelReprojErr (fun _ _ => none)
        ⟨(0, 0, 0), (0, 0, 0, 1), fun _ => 0⟩
        (0, 0, 0) (0, 0, 0, 1) (1, 1, 1) (0, 0) 2 = ((1000, 1000), true) :=
  C2_catch_saturates (fun _ _ => none) (fun _ _ => none) _ _ 0 1 0 1
    (fun _ => (0, 0, 0, 1)) (fun _ => (0, 0, 0)) (0, 0, 0) (0, 0, 0, 1)
    (1, 1, 1) (0, 0) 2 rfl rfl

/-- C3: jitter cost locality.  With `groundToImage` modelled per the
spec as reading only the 8-sample Lagrange windows at the solved pixel's
line time, two linescan models that differ only in a quaternion sample
at index `q` outside `[begQuat, endQuat)` — and only in a position
sample at index `r` outside `[begPos, endPos)` — produce identical
(bit-exact, since the model is exact) reprojection residuals for a fixed
observation and fixed parameter values, provided the line time lies in
the interval `[t1, t2]` used to compute the bounds and neither clamp of
`calcIndexBounds` is active. -/
theorem C3_jitter_cost_locality
    (F : (ℤ → Option Quat4) → (ℤ → Option V3) → ℚ × ℚ)
    (lineTime : V3 → ℚ) (m1 m2 : LsModel) (t1 t2 : ℚ)
    (bQ eQ bP eP : ℤ) (pQ : ℤ → Quat4) (pP : ℤ → V3)
    (point : V3) (obs : ℚ × ℚ) (w : ℚ) (q r : ℤ)
    (hq0 : m2.t0Quat = m1.t0Quat) (hqd : m2.dtQuat = m1.dtQuat)
    (hp0 : m2.t0Ephem = m1.t0Ephem) (hpd : m2.dtEphem = m1.dtEphem)
    (hdtQ : 0 < m1.dtQuat) (hdtP : 0 < m1.dtEphem)
    (hokQ : calcIndexBounds t1 t2 m1.t0Quat m1.dtQuat m1.numQuat = Except.ok (bQ, eQ))
    (hokP : calcIndexBounds t1 t2 m1.t0Ephem m1.dtEphem m1.numPos = Except.ok (bP, eP))
    (hloQ : 0 ≤ truncToInt ((min t1 t2 - m1.t0Quat) / m1.dtQuat) - 3)
    (hhiQ : truncToInt ((max t1 t2 - m1.t0Quat) / m1.dtQuat) + 5 ≤ m1.numQuat)
    (hloP : 0 ≤ truncToInt ((min t1 t2 - m1.t0Ephem) / m1.dtEphem) - 3)
    (hhiP : truncToInt ((max t1 t2 - m1.t0Ephem) / m1.dtEphem) + 5 ≤ m1.numPos)
    (hq : q < bQ ∨ eQ ≤ q) (hr : r < bP ∨ eP ≤ r)
    (hquat : ∀ i, i ≠ q → m2.quaternions i = m1.quaternions i)
    (hpos : ∀ i, i ≠ r → m2.positions i = m1.positions i)
    (ht1 : min t1 t2 ≤ lineTime point) (ht2 : lineTime point ≤ max t1 t2) :
    lsPixelReprojErr (groundToImageSpec F lineTime) m1 bQ eQ bP eP pQ pP point obs w
      = lsPixelReprojErr (groundToImageSpec F lineTime) m2 bQ eQ bP eP pQ pP point obs w := by
  have hmq : ∀ i, inLagrangeWindow (lineTime point)
      (lsUpdatedCam m1 bQ eQ bP eP pQ pP).t0Quat
      (lsUpdatedCam m1 bQ eQ bP eP pQ pP).dtQuat i →
      (lsUpdatedCam m2 bQ eQ bP eP pQ pP).quaternions i
        = (lsUpdatedCam m1 bQ eQ bP eP pQ pP).quaternions i := by
    intro i hi
    have hbound := lagrangeWindow_subset_bounds t1 t2 m1.t0Quat m1.dtQuat m1.numQuat
      bQ eQ hdtQ hokQ hloQ hhiQ (lineTime point) ht1 ht2 i hi
    show (if bQ ≤ i ∧ i < eQ then pQ (i - bQ) else m2.quaternions i)
      = (if bQ ≤ i ∧ i < eQ then pQ (i - bQ) else m1.quaternions i)
    rw [if_pos hbound, if_pos hbound]
  have hmp : ∀ i, inLagrangeWindow (lineTime point)
      (lsUpdatedCam m1 bQ eQ bP eP pQ pP).t0Ephem
      (lsUpdatedCam m1 bQ eQ bP eP pQ pP).dtEphem i →
      (lsUpdatedCam m2 bQ eQ bP eP pQ pP).positions i
        = (lsUpdatedCam m1 bQ eQ bP eP pQ pP).positions i := by
    intro i hi
    have hbound := lagrangeWindow_subset_bounds t1 t2 m1.t0Ephem m1.dtEphem m1.numPos
      bP eP hdtP hokP hloP hhiP (lineTime point) ht1 ht2 i hi
    show (if bP ≤ i ∧ i < eP then pP (i - bP) else m2.positions i)
      = (if bP ≤ i ∧ i < eP then pP (i - bP) else m1.positions i)
    rw [if_pos hbound, if_pos hbound]
  have hmask := masked_views_eq
    (lsUpdatedCam m1 bQ eQ bP eP pQ pP) (lsUpdatedCam m2 bQ eQ bP eP pQ pP)
    (lineTime point) hq0 hqd hp0 hpd hmq hmp
  simp only [lsPixelReprojErr, groundToImageSpec]
  rw [hmask.1, hmask.2]

/-- C3 witness: a concrete pair of models differing only at quaternion
and position sample index `0`, with bounds `[1, 9)` from
`calcIndexBounds 4 4 0 1 20`, give equal residuals. -/
theorem C3_jitter_cost_locality_witness :
    lsPixelReprojErr (groundToImageSpec (fun _ _ => (0, 0)) (fun _ => 4))
        ⟨20, 0, 1, fun _ => (0, 0, 0, 1), 20, 0, 1, fun _ => (0, 0, 0)⟩
        1 9 1 9 (fun _ => (0, 0, 0, 1)) (fun _ => (0, 0, 0)) (1, 1, 1) (0, 0) 1
      = lsPixelReprojErr (groundToImageSpec (fun _ _ => (0, 0)) (fun _ => 4))
        ⟨20, 0, 1, fun i => if i = 0 then (1, 0, 0, 0) else (0, 0, 0, 1),
         20, 0, 1, fun i => if i = 0 then (5, 5, 5) else (0, 0, 0)⟩
        1 9 1 9 (fun _ => (0, 0, 0, 1)) (fun _ => (0, 0, 0)) (1, 1, 1) (0, 0) 1 := by
  refine C3_jitter_cost_locality (fun _ _ => (0, 0)) (fun _ => 4)
    ⟨20, 0, 1, fun _ => (0, 0, 0, 1), 20, 0, 1, fun _ => (0, 0, 0)⟩
    ⟨20, 0, 1, fun i => if i = 0 then (1, 0, 0, 0) else (0, 0, 0, 1),
     20, 0, 1, fun i => if i = 0 then (5, 5, 5) else (0, 0, 0)⟩
    4 4 1 9 1 9 (fun _ => (0, 0, 0, 1)) (fun _ => (0, 0, 0)) (1, 1, 1) (0, 0) 1
    0 0 rfl rfl rfl rfl (by norm_num) (by norm_num) ?_ ?_ ?_ ?_ ?_ ?_ ?_ ?_ ?_ ?_ ?_ ?_
  · norm_num [calcIndexBounds, truncToInt]
  · norm_num [calcIndexBounds, truncToInt]
  · norm_num [truncToInt]
  · norm_num [truncToInt]
  · norm_num [truncToInt]
  · norm_num [truncToInt]
  · left
    norm_num
  · left
    norm_num
  · intro i hi
    simp only [if_neg hi]
  · intro i hi
    simp only [if_neg hi]
  · norm_num
  · norm_num

/-- The 180-degree normalization lands in `[−90, 90]`. -/
theorem normalizeAngle180_bound (x : ℚ) : |normalizeAngle180 x| ≤ 90 := by
  have h180 : (180 : ℚ) * (x / 180) = x := by
    rw [mul_div_cancel₀]
    norm_num
  unfold normalizeAngle180 cRound
  rw [abs_le]
  by_cases h : 0 ≤ x / 180
  · rw [if_pos h]
    have h1 : ((⌊x / 180 + 1/2⌋ : ℤ) : ℚ) ≤ x / 180 + 1/2 := Int.floor_le _
    have h2 : x / 180 + 1/2 < ((⌊x / 180 + 1/2⌋ : ℤ) : ℚ) + 1 := Int.lt_floor_add_one _
    constructor <;> linarith
  · rw [if_neg h]
    have h1 : ((⌊-(x / 180) + 1/2⌋ : ℤ) : ℚ) ≤ -(x / 180) + 1/2 := Int.floor_le _
    have h2 : -(x / 180) + 1/2 < ((⌊-(x / 180) + 1/2⌋ : ℤ) : ℚ) + 1 := Int.lt_floor_add_one _
    constructor <;> push_cast <;> linarith

/-- C4: in both modes, each regularizer output is a 180-degree
normalized angle times its weight — pitch (swapped for roll) and yaw in
the initial-camera-orientation mode, roll and yaw in the satellite-frame
mode — so with nonnegative weights (zero allowed, no special casing)
each output lies in `[−90, 90]` scaled by its weight, for arbitrary
decomposed angles, including near the 180-degree singularity. -/
theorem C4_rollYaw_regularizer (mode : Bool) (roll pitch yaw rollWeight yawWeight : ℚ)
    (hwr : 0 ≤ rollWeight) (hwy : 0 ≤ yawWeight) :
    weightedRollYawError mode roll pitch yaw rollWeight yawWeight
      = (normalizeAngle180 (if mode then pitch else roll) * rollWeight,
         normalizeAngle180 yaw * yawWeight) ∧
    |(weightedRollYawError mode roll pitch yaw rollWeight yawWeight).1| ≤ 90 * rollWeight ∧
    |(weightedRollYawError mode roll pitch yaw rollWeight yawWeight).2| ≤ 90 * yawWeight := by
  have key : ∀ a w : ℚ, 0 ≤ w → |normalizeAngle180 a * w| ≤ 90 * w := by
    intro a w hw
    rw [abs_mul, abs_of_nonneg hw]
    exact mul_le_mul_of_nonneg_right (normalizeAngle180_bound a) hw
  unfold weightedRollYawError
  cases mode
  · refine ⟨by simp, ?_, ?_⟩
    · simpa using key roll rollWeight hwr
    · simpa using key yaw yawWeight hwy
  · refine ⟨by simp, ?_, ?_⟩
    · simpa using key pitch rollWeight hwr
    · simpa using key yaw yawWeight hwy

/-- C4 witness: satellite-frame mode at roll 179°, pitch 0°, yaw 200°,
weights 2 and 3. -/
theorem C4_rollYaw_regularizer_witness :
    (0 : ℚ) ≤ 2 ∧
    weightedRollYawError false 179 0 200 2 3
      = (normalizeAngle180 179 * 2, normalizeAngle180 200 * 3) ∧
    |(weightedRollYawError false 179 0 200 2 3).1| ≤ 90 * 2 ∧
    |(weightedRollYawError false 179 0 200 2 3).2| ≤ 90 * 3 := by
  have h := C4_rollYaw_regularizer false 179 0 200 2 3 (by norm_num) (by norm_num)
  exact ⟨by norm_num, by simpa using h.1, h.2.1, h.2.2⟩

/-- C5: for a CSM session with an initial transform, a scale
`s = det(M)^(1/3)` with `|s − 1| > 1e-6` is rejected with a fatal
configuration error and the transform is never applied to the stored
camera parameters; with `|s − 1| ≤ 1e-6` the transform is accepted and
applied. -/
theorem C5_csm_initial_transform_scale (hasAdj : Bool) (s : ℚ)
    (readAdj applyT : List CamRecord → List CamRecord) (n : ℕ) :
    (|s - 1| > 1 / 1000000 →
      init_cams "csm" hasAdj true s readAdj applyT n
        = Except.error "CSM camera models do not support applying a transform with a scale.") ∧
    (|s - 1| ≤ 1 / 1000000 →
      init_cams "csm" hasAdj true s readAdj applyT n
        = Except.ok (applyT (if hasAdj then readAdj (initCamsAsZero n)
                             else initCamsAsZero n), true)) := by
  constructor
  · intro h
    have h2 : (1000000 : ℚ)⁻¹ < |s - 1| := by
      rw [← one_div]
      exact h
    simp [init_cams, h2]
  · intro h
    have h2 : ¬ ((1000000 : ℚ)⁻¹ < |s - 1|) := by
      rw [← one_div]
      exact not_lt.mpr h
    cases hasAdj <;> simp [init_cams, h2]

/-- C5 witness: scale 2 is rejected, scale 1 is accepted and the
transform (here `id`) is applied to the zero-initialized records. -/
theorem C5_csm_initial_transform_scale_witness :
    init_cams "csm" false true 2 id id 3
      = Except.error "CSM camera models do not support applying a transform with a scale." ∧
    init_cams "csm" false true 1 id id 3 = Except.ok (initCamsAsZero 3, true) := by
  constructor
  · exact (C5_csm_initial_transform_scale false 2 id id 3).1 (by norm_num)
  · have h := (C5_csm_initial_transform_scale false 1 id id 3).2 (by norm_num)
    simpa using h

/-- The camera loop of `apply_rigid_transform` on an all-pinhole list
transforms every camera. -/
theorem transformCams_map_some {Cam : Type} (applyT : Cam → Cam) (l : List Cam) :
    transformCams applyT (l.map some) = Except.ok (l.map applyT) := by
  induction l with
  | nil => rfl
  | cons c rest ih => simp [transformCams, ih, Except.map]

/-- C8: applying the ground-alignment similarity `(R, t, s)` via
`apply_rigid_transform` to all-pinhole cameras transforms every camera
with `apply_transform(R,t,s)`, sets every non-GCP control point's
position to `s·R·position + t`, and leaves every ground control point
unchanged. -/
theorem C8_apply_rigid_transform {Cam : Type} (applyT : Cam → Cam)
    (R : M3) (t : V3) (s : ℚ) (pinholes : List Cam) (cnet : List CnetPoint) :
    apply_rigid_transform applyT R t s (pinholes.map some) cnet
      = Except.ok (pinholes.map applyT,
          cnet.map (fun p =>
            if p.isGCP then p
            else { p with pos := v3add (v3smul s (mulMV R p.pos)) t })) := by
  unfold apply_rigid_transform
  rw [transformCams_map_some]
  rfl

/-- C6: evaluation of `check_gcp_dists` at the failing input.  One
triangulated point at `(1,0,0)` and two GCPs at `(119000,0,0)`:
the centroids are 118999 m apart (more than 100 km), yet no warning is
emitted, because the second loop increments `gcp_count` while using it
as a divisor and accumulates `p/2 + p/3` instead of the centroid. -/
theorem C6_check_gcp_dists_bug :
    check_gcp_dists
        [⟨false, (1, 0, 0), 2, 1, (1, 0, 0)⟩,
         ⟨true, (119000, 0, 0), 2, 0, (0, 0, 0)⟩,
         ⟨true, (119000, 0, 0), 2, 0, (0, 0, 0)⟩] = false ∧
    v3normSq (v3sub (1, 0, 0)
        (v3centroid [(119000, 0, 0), (119000, 0, 0)])) > 100000 ^ 2 := by
  constructor
  · norm_num [check_gcp_dists, gcpIpCounts, gcpIpMeans, v3normSq, v3sub, v3add, v3div,
      List.foldl]
  · norm_num [v3centroid, v3normSq, v3sub, v3add, v3div, List.foldl]

theorem intTokens_cons_int {tok : List Char} {rest : List (List Char)}
    (h : is_str_non_neg_integer tok = true) :
    intTokens (tok :: rest) = ((atoiNat tok : ℤ) - 1) :: intTokens rest := by
  simp [intTokens, h]

theorem intTokens_cons_nonint {tok : List Char} {rest : List (List Char)}
    (h : is_str_non_neg_integer tok = false) :
    intTokens (tok :: rest) = intTokens rest := by
  simp [intTokens, h]

/-- Invariant of the `fine_grained_parse` token loop: a successful parse
implies every integer token (as a zero-based id) is in `[0, numSensors)`,
none of them is in the incoming `seen_ids` set, and they are pairwise
distinct. -/
theorem fineGo_ok_inv (numSensors : ℤ) (opts : List (List Char)) :
    ∀ (sid : ℤ) (seen : List ℤ) (c f d : List Bool)
      (res : List Bool × List Bool × List Bool),
    fineGo numSensors opts sid seen c f d = Except.ok res →
    (∀ v ∈ intTokens opts, 0 ≤ v ∧ v < numSensors ∧ v ∉ seen) ∧
    (intTokens opts).Nodup := by
  induction opts with
  | nil =>
    intro sid seen c f d res h
    simp [intTokens]
  | cons tok rest ih =>
    intro sid seen c f d res h
    cases hint : is_str_non_neg_integer tok with
    | true =>
      rw [intTokens_cons_int hint]
      simp only [fineGo, hint] at h
      rw [if_pos trivial] at h
      split at h
      · exact absurd h (by simp)
      split at h
      · exact absurd h (by simp)
      rename_i hb hseen
      obtain ⟨h1, h2⟩ := ih _ _ _ _ _ _ h
      constructor
      · intro v hv
        rcases List.mem_cons.mp hv with hv | hv
        · subst hv
          refine ⟨by omega, by omega, hseen⟩
        · obtain ⟨b1, b2, b3⟩ := h1 v hv
          exact ⟨b1, b2, fun hc => b3 (List.mem_cons_of_mem _ hc)⟩
      · refine List.nodup_cons.mpr ⟨?_, h2⟩
        intro hmem
        exact (h1 _ hmem).2.2 (List.mem_cons_self _ _)
    | false =>
      rw [intTokens_cons_nonint hint]
      simp only [fineGo, hint] at h
      rw [if_neg Bool.false_ne_true] at h
      repeat' split at h
      all_goals first
        | exact ih _ _ _ _ _ _ h
        | exact absurd h (by simp)

/-- C9: the fine-grained DSL on
`"1:focal_length,optical_center 2:all 3:none"` with 3 sensors yields
`center=[T,T,F]`, `focus=[T,T,F]`, `distortion=[F,T,F]`; the coarse DSL
on `"focal_length"` with 4 sensors floats the focus of all four sensors
and nothing else; and any successful fine-grained parse has pairwise
distinct, in-range sensor indices (so duplicates and out-of-range
indices are rejected with an error). -/
theorem C9_intrinsics_dsl :
    fine_grained_parse true 3 (split_str_with_space (replace_separators_with_space
        ("1:focal_length,optical_center 2:all 3:none".toList)))
      = Except.ok ([true, true, false], [true, true, false], [false, true, false]) ∧
    coarse_grained_parse 4 (split_str_with_space (replace_separators_with_space
        ("focal_length".toList)))
      = Except.ok ([false, false, false, false], [true, true, true, true],
                   [false, false, false, false]) ∧
    (∀ (numSensors : ℤ) (options : List (List Char))
       (res : List Bool × List Bool × List Bool),
      fine_grained_parse true numSensors options = Except.ok res →
      (intTokens options).Nodup ∧
      ∀ v ∈ intTokens options, 0 ≤ v ∧ v < numSensors) := by
  refine ⟨by decide, by decide, ?_⟩
  intro numSensors options res h
  simp only [fine_grained_parse] at h
  split at h
  · exact absurd h (by simp)
  split at h
  · exact absurd h (by simp)
  split at h
  · exact absurd h (by simp)
  split at h
  · exact absurd h (by simp)
  obtain ⟨h1, h2⟩ := fineGo_ok_inv _ _ _ _ _ _ _ _ h
  exact ⟨h2, fun v hv => ⟨(h1 v hv).1, (h1 v hv).2.1⟩⟩

/-- C9 witness: the successful parse from the first conjunct discharges
the hypothesis of the rejection property: the indices `1 2 3` are
distinct and in range for 3 sensors. -/
theorem C9_intrinsics_dsl_witness :
    (intTokens (split_str_with_space (replace_separators_with_space
        ("1:focal_length,optical_center 2:all 3:none".toList)))).Nodup ∧
    ∀ v ∈ intTokens (split_str_with_space (replace_separators_with_space
        ("1:focal_length,optical_center 2:all 3:none".toList))),
      0 ≤ v ∧ v < 3 :=
  C9_intrinsics_dsl.2.2 3 _ _ C9_intrinsics_dsl.1

theorem length_insertSorted (x : ℚ) (l : List ℚ) :
    (insertSorted x l).length = l.length + 1 := by
  induction l with
  | nil => rfl
  | cons y ys ih =>
    unfold insertSorted
    split
    · simp
    · simp [ih]

theorem length_sortQ (l : List ℚ) : (sortQ l).length = l.length := by
  induction l with
  | nil => rfl
  | cons x xs ih =>
    show (insertSorted x (sortQ xs)).length = xs.length + 1
    rw [length_insertSorted, ih]

theorem mem_insertSorted {y x : ℚ} {l : List ℚ} (h : y ∈ insertSorted x l) :
    y = x ∨ y ∈ l := by
  induction l with
  | nil =>
    simp [insertSorted] at h
    exact Or.inl h
  | cons z zs ih =>
    unfold insertSorted at h
    split at h
    · rcases List.mem_cons.mp h with h | h
      · exact Or.inl h
      · exact Or.inr h
    · rcases List.mem_cons.mp h with h | h
      · exact Or.inr (List.mem_cons.mpr (Or.inl h))
      · rcases ih h with h | h
        · exact Or.inl h
        · exact Or.inr (List.mem_cons.mpr (Or.inr h))

theorem mem_sortQ {y : ℚ} {l : List ℚ} (h : y ∈ sortQ l) : y ∈ l := by
  induction l with
  | nil => simp [sortQ] at h
  | cons x xs ih =>
    have h' : y ∈ insertSorted x (sortQ xs) := h
    rcases mem_insertSorted h' with h | h
    · simp [h]
    · exact List.mem_cons.mpr (Or.inr (ih h))

theorem getD_mem_of_lt {l : List ℚ} {i : ℕ} (h : i < l.length) : l.getD i 0 ∈ l := by
  induction l generalizing i with
  | nil => simp at h
  | cons x xs ih =>
    cases i with
    | zero => simp
    | succ j =>
      have hj : j < xs.length := by simpa using h
      simpa using Or.inr (ih hj)

/-- `V[n/2]` of a nonempty coordinate list is one of its values. -/
theorem medianPick_mem (l : List ℚ) (h : l ≠ []) : medianPick l l.length ∈ l := by
  have hlen : 0 < l.length := List.length_pos.mpr h
  have hidx : l.length / 2 < (sortQ l).length := by
    rw [length_sortQ]
    omega
  exact mem_sortQ (getD_mem_of_lt hidx)

theorem perturb1e10_zero (m : ℚ) : perturb1e10 0 m = m := by
  simp [perturb1e10]

theorem filterMap_none_of {α β : Type} (f : α → Option β) (l : List α)
    (h : ∀ a, f a = none) : l.filterMap f = [] := by
  induction l with
  | nil => rfl
  | cons x xs ih => simp [List.filterMap_cons, h x, ih]

theorem flatMap_nil_of {α β : Type} (f : α → List β) (l : List α)
    (h : ∀ a, f a = []) : l.flatMap f = [] := by
  induction l with
  | nil => rfl
  | cons x xs ih => simp [List.flatMap_cons, h x, ih]

/-- A tile of an all-invalid cloud contributes no points. -/
theorem collectTilePoints_zero (cloud : ℤ → ℤ → V3)
    (h : ∀ x y, cloud x y = ((0 : ℚ), (0 : ℚ), (0 : ℚ))) (box : BBox) :
    collectTilePoints cloud box = [] := by
  unfold collectTilePoints
  apply flatMap_nil_of
  intro px
  apply filterMap_none_of
  intro py
  simp [h]

/-- On an all-invalid cloud the spiral accumulates nothing. -/
theorem findCenterPoints_zero (cloud : ℤ → ℤ → V3)
    (h : ∀ x y, cloud x y = ((0 : ℚ), (0 : ℚ), (0 : ℚ)))
    (fullBox cropWin : BBox) (ts0 ts1 : ℕ) (tiles : List (ℤ × ℤ)) :
    findCenterPoints cloud fullBox cropWin ts0 ts1 tiles [] = [] := by
  induction tiles with
  | nil => rfl
  | cons t rest ih =>
    obtain ⟨x, y⟩ := t
    simp only [findCenterPoints, collectTilePoints_zero cloud h, List.append_nil]
    rw [if_neg (by simp)]
    exact ih

/-- C10: an empty accumulated point list makes
`find_approx_points_median` — and, on a cloud with no valid point,
`find_point_cloud_center` — return exactly the zero vector, the
pipeline's invalid-point sentinel. -/
theorem C10_empty_cloud_center_zero (u1 u2 u3 : ℚ) (ts0 ts1 cols rows : ℕ)
    (cropWin : BBox) (cloud : ℤ → ℤ → V3)
    (h : ∀ x y, cloud x y = ((0 : ℚ), (0 : ℚ), (0 : ℚ))) :
    find_approx_points_median u1 u2 u3 [] = (0, 0, 0) ∧
    find_point_cloud_center u1 u2 u3 ts0 ts1 cols rows cropWin cloud = (0, 0, 0) := by
  constructor
  · simp [find_approx_points_median]
  · simp only [find_point_cloud_center, findCenterPoints_zero cloud h]
    simp [find_approx_points_median]

/-- C10 witness: a concrete 100×80 all-zero cloud with 32×32 tiles. -/
theorem C10_empty_cloud_center_zero_witness :
    find_approx_points_median 0 0 0 [] = (0, 0, 0) ∧
    find_point_cloud_center 0 0 0 32 32 100 80 ⟨0, 0, 100, 80⟩
      (fun _ _ => ((0 : ℚ), (0 : ℚ), (0 : ℚ))) = (0, 0, 0) :=
  C10_empty_cloud_center_zero 0 0 0 32 32 100 80 ⟨0, 0, 100, 80⟩
    (fun _ _ => ((0 : ℚ), (0 : ℚ), (0 : ℚ))) (fun _ _ => rfl)

set_option maxRecDepth 100000 in
/-- C7: counterexample.  Tile size 100×1 over a 200×1 cloud whose left
half is `(3,1,1)` and right half `(2,1,1)` (all valid).  The spiral
visits the right tile first, accumulating exactly 100 points; since the
code stops only when `points.size() > 100`, it continues to the left
tile and returns median `(3,1,1)` (with zero random draws), whereas
stopping "as soon as at least 100 points" — the claim — would return
`(2,1,1)`.  The two results differ, so the claimed stopping rule is not
the code's. -/
theorem C7_counterexample :
    find_point_cloud_center 0 0 0 100 1 200 1 ⟨0, 0, 200, 1⟩
        (fun px _ => if px < 100 then ((3 : ℚ), 1, 1) else ((2 : ℚ), 1, 1)) = (3, 1, 1) ∧
    find_point_cloud_center_specStop 0 0 0 100 1 200 1 ⟨0, 0, 200, 1⟩
        (fun px _ => if px < 100 then ((3 : ℚ), 1, 1) else ((2 : ℚ), 1, 1)) = (2, 1, 1) ∧
    ((3 : ℚ), (1 : ℚ), (1 : ℚ)) ≠ ((2 : ℚ), (1 : ℚ), (1 : ℚ)) := by
  refine ⟨?_, ?_, by decide⟩
  · simp only [find_point_cloud_center, find_approx_points_median]
    rw [if_neg]
    · simp only [perturb1e10_zero]
      decide
    · decide
  · simp only [find_point_cloud_center_specStop, find_approx_points_median]
    rw [if_neg]
    · simp only [perturb1e10_zero]
      decide
    · decide

/-- C7 (amended): the spiral returns at the first tile after which
*strictly more than* 100 valid points have been accumulated (the check
is per tile, not per point), and otherwise keeps spiralling; for a
nonempty accumulation the returned center is, per coordinate, the
element at index `n/2` of the sorted coordinate values — a value
attained by some accumulated point — scaled by
`(1 + 1e-10·u)` with `u = rand()/RAND_MAX ∈ [0,1]` (so for `u = 0` or a
zero median coordinate the nudge vanishes and the center can coincide
with a real point). -/
theorem C7_cloud_center_amended :
    (∀ (cloud : ℤ → ℤ → V3) (fb cw : BBox) (ts0 ts1 : ℕ) (x y : ℤ)
       (rest : List (ℤ × ℤ)) (pts : List V3),
      100 < (pts ++ collectTilePoints cloud
          (cropBBox (cropBBox ⟨x * (ts0 : ℤ), y * (ts1 : ℤ),
            x * (ts0 : ℤ) + (ts0 : ℤ), y * (ts1 : ℤ) + (ts1 : ℤ)⟩ fb) cw)).length →
      findCenterPoints cloud fb cw ts0 ts1 ((x, y) :: rest) pts
        = pts ++ collectTilePoints cloud
            (cropBBox (cropBBox ⟨x * (ts0 : ℤ), y * (ts1 : ℤ),
              x * (ts0 : ℤ) + (ts0 : ℤ), y * (ts1 : ℤ) + (ts1 : ℤ)⟩ fb) cw)) ∧
    (∀ (cloud : ℤ → ℤ → V3) (fb cw : BBox) (ts0 ts1 : ℕ) (x y : ℤ)
       (rest : List (ℤ × ℤ)) (pts : List V3),
      ¬ 100 < (pts ++ collectTilePoints cloud
          (cropBBox (cropBBox ⟨x * (ts0 : ℤ), y * (ts1 : ℤ),
            x * (ts0 : ℤ) + (ts0 : ℤ), y * (ts1 : ℤ) + (ts1 : ℤ)⟩ fb) cw)).length →
      findCenterPoints cloud fb cw ts0 ts1 ((x, y) :: rest) pts
        = findCenterPoints cloud fb cw ts0 ts1 rest
            (pts ++ collectTilePoints cloud
              (cropBBox (cropBBox ⟨x * (ts0 : ℤ), y * (ts1 : ℤ),
                x * (ts0 : ℤ) + (ts0 : ℤ), y * (ts1 : ℤ) + (ts1 : ℤ)⟩ fb) cw))) ∧
    (∀ (u1 u2 u3 : ℚ) (pts : List V3), pts ≠ [] →
      find_approx_points_median u1 u2 u3 pts
        = (perturb1e10 u1 (medianPick (pts.map fun p => p.1) pts.length),
           perturb1e10 u2 (medianPick (pts.map fun p => p.2.1) pts.length),
           perturb1e10 u3 (medianPick (pts.map fun p => p.2.2) pts.length)) ∧
      medianPick (pts.map fun p => p.1) pts.length ∈ (pts.map fun p => p.1)) := by
  refine ⟨?_, ?_, ?_⟩
  · intro cloud fb cw ts0 ts1 x y rest pts h
    simp only [findCenterPoints]
    rw [if_pos h]
  · intro cloud fb cw ts0 ts1 x y rest pts h
    simp only [findCenterPoints]
    rw [if_neg h]
  · intro u1 u2 u3 pts h
    constructor
    · simp [find_approx_points_median, h]
    · have hmap : (pts.map fun p => p.1) ≠ [] := by
        simpa using h
      have hlen : (pts.map fun p => p.1).length = pts.length := List.length_map _ _
      have := medianPick_mem (pts.map fun p => p.1) hmap
      rwa [hlen] at this

/-- C7 amended witness: a one-tile cloud of 101 valid points triggers
the early return; the median formula and membership hold at a concrete
two-point list. -/
theorem C7_cloud_center_amended_witness :
    findCenterPoints (fun _ _ => ((1 : ℚ), 1, 1)) ⟨0, 0, 101, 1⟩ ⟨0, 0, 101, 1⟩
        101 1 [(0, 0)] []
      = [] ++ collectTilePoints (fun _ _ => ((1 : ℚ), 1, 1))
          (cropBBox (cropBBox ⟨0 * (101 : ℤ), 0 * (1 : ℤ),
            0 * (101 : ℤ) + (101 : ℤ), 0 * (1 : ℤ) + (1 : ℤ)⟩ ⟨0, 0, 101, 1⟩)
            ⟨0, 0, 101, 1⟩) ∧
    find_approx_points_median 0 0 0 [((5 : ℚ), 6, 7), ((1 : ℚ), 2, 3)]
      = (perturb1e10 0 (medianPick [(5 : ℚ), 1] 2),
         perturb1e10 0 (medianPick [(6 : ℚ), 2] 2),
         perturb1e10 0 (medianPick [(7 : ℚ), 3] 2)) := by
  constructor
  · exact C7_cloud_center_amended.1 (fun _ _ => ((1 : ℚ), 1, 1)) ⟨0, 0, 101, 1⟩
      ⟨0, 0, 101, 1⟩ 101 1 0 0 [] [] (by decide)
  · have h := (C7_cloud_center_amended.2.2 0 0 0 [((5 : ℚ), 6, 7), ((1 : ℚ), 2, 3)]
      (by decide)).1
    simpa using h

end StereoPipeline
